import Mathlib

/-!
Shallow embedding of `src/motorctl.c` (px4esc motor control supervisor).

Modelling conventions:
* C `float` arithmetic is modelled as exact rational arithmetic (`ℚ`).
* The sentinel `nan("")` used by the control laws to mean "no valid
  output" is modelled as `Option ℚ` with `none` playing the role of NaN
  (the `isfinite` check becomes a `match` on the option).
* `uint32_t` / `unsigned` quantities are `Nat`, with an explicit
  `% 2 ^ 32` where the C code truncates a wider value into `uint32_t`.
* Unsigned division with a zero divisor is undefined behaviour in C, so
  `comm_period_to_rpm` returns `Option Nat`, `none` for a zero divisor.
* The driver (`motor_*` functions), which is out of scope, is modelled
  as an environment record sampled by each worker tick, and the commands
  the controller issues to it are reified in a `Command` type.
-/

set_option autoImplicit false

namespace Motorctl

/-- Modelled from the spec: the `motorctl.h` header is not part of the
sources given, the spec describes the command modes as the set
\x7bOpenLoop, TargetRpm\x7d; `MOTORCTL_MODE_OPENLOOP` is the first (zero)
enumerator. -/
inductive MotorctlMode where
  | openloop
  | rpm
deriving DecidableEq, Repr

/-- Driver motor state, from `motor_get_state()` (`motor/motor.h` is out
of scope; the spec lists the states as Idle, Starting, Running). -/
inductive MotorState where
  | idle
  | starting
  | running
deriving DecidableEq, Repr

/-- Modelled from the spec: the limit bit constants
`MOTORCTL_LIMIT_RPM` / `MOTORCTL_LIMIT_ACCEL` live in the missing
`motorctl.h`; the spec describes `limit_mask` as a set of
\x7bRpmLimit, AccelLimit\x7d, modelled as one boolean per bit. -/
structure LimitMask where
  rpm : Bool
  accel : Bool
deriving DecidableEq, Repr

/-- The cleared mask, `_state.limit_mask = 0`. -/
def LimitMask.empty : LimitMask := ⟨false, false⟩

/-- `struct state` of motorctl.c (the shared control state). -/
structure State where
  mode : MotorctlMode
  limit_mask : LimitMask
  dc_actual : ℚ
  dc_openloop_setpoint : ℚ
  rpm_setpoint : Nat
  input_voltage : ℚ
  input_current : ℚ
deriving DecidableEq, Repr

/-- `struct params` of motorctl.c. -/
structure Params where
  spinup_voltage : ℚ
  dc_step_max : ℚ
  dc_slope : ℚ
  voltage_current_lowpass_tau : ℚ
  poles : Nat
  reverse : Bool
  comm_period_limit : Nat
  rpm_max : Nat
  rpm_min : Nat
deriving DecidableEq, Repr

/-- One tick's worth of driver readings: `motor_get_state()`,
`motor_get_comm_period_hnsec()` and
`motor_get_input_voltage_current()`. -/
structure Env where
  motor_state : MotorState
  comm_period : Nat
  voltage : ℚ
  current : ℚ
deriving DecidableEq, Repr

/-- Commands the controller issues to the driver: `motor_start`,
`motor_stop`, `motor_set_duty_cycle`. -/
inductive Command where
  | start (min_dc max_dc : ℚ) (reverse : Bool)
  | stop
  | setDuty (dc : ℚ)
deriving DecidableEq, Repr

/-- `HNSEC_PER_SEC`: hecto-nanoseconds per second (from motor/timer.h,
`10^9 / 100`). -/
def HNSEC_PER_SEC : Nat := 10000000

/-- `const uint32_t x = (120ULL * (uint64_t)HNSEC_PER_SEC) / (_params.poles * 6);`
the 64-bit quotient is truncated into a `uint32_t`. -/
def rpm_conv_x (poles : Nat) : Nat :=
  (120 * HNSEC_PER_SEC) / (poles * 6) % (2 ^ 32)

/-- `comm_period_to_rpm`: `return x / comm_period_hnsec;`.  The divisor
is the raw commutation period; a zero divisor is undefined behaviour for
C unsigned division, modelled as `none`. -/
def comm_period_to_rpm (poles comm_period_hnsec : Nat) : Option Nat :=
  if comm_period_hnsec = 0 then none
  else some (rpm_conv_x poles / comm_period_hnsec)

/-- `configure()`: the hard-coded parameter values; `comm_period_limit`
comes from the driver (`motor_get_limit_comm_period_hnsec()`), passed in
here.  `rpm_max = comm_period_to_rpm(comm_period_limit)`; the driver's
limit period is positive, so the `none` branch of the conversion cannot
occur and `getD 0` is never exercised for real inputs. -/
def configure (limit_comm_period : Nat) : Params :=
  { spinup_voltage := 2
    dc_step_max := 1/5
    dc_slope := 1
    voltage_current_lowpass_tau := 2
    poles := 14
    reverse := false
    comm_period_limit := limit_comm_period
    rpm_max := (comm_period_to_rpm 14 limit_comm_period).getD 0
    rpm_min := 500 }

/-- `lowpass()`: single-pole exponential smoothing. -/
def lowpass (xold xnew tau dt : ℚ) : ℚ :=
  (dt * xnew + tau * xold) / (dt + tau)

/-- `update_filters()`: smooth the driver's raw voltage/current into the
state. -/
def update_filters (p : Params) (env : Env) (dt : ℚ) (s : State) : State :=
  { s with
    input_voltage := lowpass s.input_voltage env.voltage p.voltage_current_lowpass_tau dt
    input_current := lowpass s.input_current env.current p.voltage_current_lowpass_tau dt }

/-- `stop()`: driver stop plus state reset (the `motor_stop()` call is
reified as `Command.stop` at the call sites). -/
def stop (s : State) : State :=
  { s with
    limit_mask := LimitMask.empty
    dc_actual := 0
    dc_openloop_setpoint := 0
    rpm_setpoint := 0 }

/-- `update_control_non_running()`. -/
def update_control_non_running (p : Params) (env : Env) (s : State) :
    State × Option Command :=
  if env.motor_state = MotorState.starting then (s, none)
  else
    let spinup_dc := p.spinup_voltage / s.input_voltage
    let s1 := { s with dc_actual := spinup_dc, limit_mask := LimitMask.empty }
    if (s1.mode = MotorctlMode.openloop ∧ s1.dc_openloop_setpoint ≥ spinup_dc) ∨
       (s1.mode = MotorctlMode.rpm ∧ s1.rpm_setpoint ≥ p.rpm_min) then
      (s1, some (Command.start spinup_dc spinup_dc p.reverse))
    else
      (s1, none)

/-- The linear throttle-back expression of `update_control_open_loop`:
`c1 = _params.comm_period_limit`, `c0 = _params.comm_period_limit / 2`
(unsigned integer division, then converted to float),
`dc = (cp - c0) / (c1 - c0)`. -/
def throttle_dc (comm_period_limit cp : Nat) : ℚ :=
  let c1 : ℚ := (comm_period_limit : ℚ)
  let c0 : ℚ := ((comm_period_limit / 2 : Nat) : ℚ)
  ((cp : ℚ) - c0) / (c1 - c0)

/-- `update_control_open_loop()`: may set/clear `MOTORCTL_LIMIT_RPM` and
returns the candidate duty cycle, `none` for `nan("")`. -/
def update_control_open_loop (p : Params) (env : Env) (s : State) :
    State × Option ℚ :=
  if env.comm_period = 0 then (s, none)
  else if env.comm_period < p.comm_period_limit ∧
          throttle_dc p.comm_period_limit env.comm_period < s.dc_openloop_setpoint then
    ({ s with limit_mask := { s.limit_mask with rpm := true } },
     some (throttle_dc p.comm_period_limit env.comm_period))
  else
    let s1 := { s with limit_mask := { s.limit_mask with rpm := false } }
    if s1.dc_openloop_setpoint > 0 then (s1, some s1.dc_openloop_setpoint)
    else (s1, none)

/-- `update_control_rpm()`: `return nan("");` (deliberately
unimplemented closed-loop law). -/
def update_control_rpm (dt : ℚ) (s : State) : State × Option ℚ :=
  (s, none)

/-- The mode dispatch of `update_control` (the `assert(0)` arm is
unreachable: the mode type is exhaustive). -/
def control_law (p : Params) (env : Env) (dt : ℚ) (s : State) :
    State × Option ℚ :=
  match s.mode with
  | MotorctlMode.openloop => update_control_open_loop p env s
  | MotorctlMode.rpm => update_control_rpm dt s

/-- `update_control()`: non-running handling, mode dispatch, NaN stop,
duty-cycle slope control and the final `motor_set_duty_cycle`. -/
def update_control (p : Params) (env : Env) (dt : ℚ) (s : State) :
    State × Option Command :=
  if env.motor_state ≠ MotorState.running then
    update_control_non_running p env s
  else
    let s1 := (control_law p env dt s).1
    match (control_law p env dt s).2 with
    | none => (stop s1, some Command.stop)
    | some new_duty_cycle =>
      if |new_duty_cycle - s1.dc_actual| > p.dc_step_max then
        let step0 := p.dc_slope * dt
        let step1 := if new_duty_cycle < s1.dc_actual then -step0 else step0
        let nd := s1.dc_actual + step1
        (⟨s1.mode, { s1.limit_mask with accel := true }, nd,
          s1.dc_openloop_setpoint, s1.rpm_setpoint, s1.input_voltage,
          s1.input_current⟩,
         some (Command.setDuty nd))
      else
        (⟨s1.mode, { s1.limit_mask with accel := false }, new_duty_cycle,
          s1.dc_openloop_setpoint, s1.rpm_setpoint, s1.input_voltage,
          s1.input_current⟩,
         some (Command.setDuty new_duty_cycle))

/-- `motorctl_set_duty_cycle()`: mode switch and clamp of the open-loop
setpoint. -/
def motorctl_set_duty_cycle (dc : ℚ) (s : State) : State :=
  let dc1 := if dc < 0 then (0 : ℚ) else dc
  let dc2 := if dc1 > 1 then (1 : ℚ) else dc1
  { s with mode := MotorctlMode.openloop, dc_openloop_setpoint := dc2 }

/-- `motorctl_set_rpm()`: mode switch and clamp of the RPM setpoint. -/
def motorctl_set_rpm (p : Params) (rpm : Nat) (s : State) : State :=
  let r := if rpm > p.rpm_max then p.rpm_max else rpm
  { s with mode := MotorctlMode.rpm, rpm_setpoint := r }

/-- `motorctl_get_rpm()`: reads the live comm period from the driver and
converts it. -/
def motorctl_get_rpm (p : Params) (comm_period : Nat) : Option Nat :=
  comm_period_to_rpm p.poles comm_period

/-- `MIN_VALID_INPUT_VOLTAGE`. -/
def MIN_VALID_INPUT_VOLTAGE : ℚ := 4

/-- `MAX_VALID_INPUT_VOLTAGE`. -/
def MAX_VALID_INPUT_VOLTAGE : ℚ := 40

/-- The zero-initialised static `_state` (C static storage): mode is the
zero enumerator, everything else zero. -/
def initState : State :=
  { mode := MotorctlMode.openloop
    limit_mask := LimitMask.empty
    dc_actual := 0
    dc_openloop_setpoint := 0
    rpm_setpoint := 0
    input_voltage := 0
    input_current := 0 }

/-- Outcome of `motorctl_init`: the returned status, whether
`configure()`/`init_filters()` ran, and whether the control thread was
created. -/
structure InitResult where
  ret : Int
  configured : Bool
  thread_started : Bool
deriving DecidableEq, Repr

/-- `motorctl_init()`: propagate a driver init failure, otherwise
configure, seed the filters (`init_filters`), validate the seeded
voltage, and only then start the worker thread. -/
def motorctl_init (motor_init_ret : Int) (seed_voltage seed_current : ℚ) :
    InitResult × State :=
  if motor_init_ret ≠ 0 then
    ({ ret := motor_init_ret, configured := false, thread_started := false },
     initState)
  else
    let s := { initState with
               input_voltage := seed_voltage, input_current := seed_current }
    if s.input_voltage < MIN_VALID_INPUT_VOLTAGE ∨
       s.input_voltage > MAX_VALID_INPUT_VOLTAGE then
      ({ ret := -1, configured := true, thread_started := false }, s)
    else
      ({ ret := 0, configured := true, thread_started := true }, s)

/-- The operations the public surface and the worker perform on the
shared state: one worker tick (with its driver readings and measured
`dt`), and the two setters. -/
inductive Op where
  | tick (env : Env) (dt : ℚ)
  | setDC (dc : ℚ)
  | setRPM (rpm : Nat)
deriving DecidableEq, Repr

/-- One operation on the shared state.  A worker tick is
`update_filters` followed by `update_control` (the body of
`control_thread`'s loop). -/
def step (p : Params) (s : State) (op : Op) : State :=
  match op with
  | Op.tick env dt => (update_control p env dt (update_filters p env dt s)).1
  | Op.setDC dc => motorctl_set_duty_cycle dc s
  | Op.setRPM rpm => motorctl_set_rpm p rpm s

/-- Run a sequence of operations. -/
def run (p : Params) (s : State) (ops : List Op) : State :=
  ops.foldl (step p) s

/-! ### Shared concrete artefacts used by witnesses and counterexamples -/

/-- Parameters as produced by `configure` with the driver reporting a
limit commutation period of 14285 hnsec (which makes `rpm_max` exactly
1000 for the hard-coded 14 poles). -/
def p0 : Params := configure 14285

/-- The state right after a successful `motorctl_init` with a seeded
input voltage of 4 V. -/
def s04 : State := (motorctl_init 0 4 0).2

/-- A tick in which the driver reports the motor idle. -/
def envIdle : Env := ⟨MotorState.idle, 0, 4, 0⟩

/-- A tick in which the driver reports the motor running with a live
commutation period of 20000 hnsec (above `p0.comm_period_limit`, so no
RPM throttling). -/
def envRun : Env := ⟨MotorState.running, 20000, 4, 0⟩

/-! ### C5 -/

/-- Claim C5 counterexample: with a comm-period floor of 1000, the
throttle-back expression maps `period == c1` to 1, not to 0.5 as the
claim states (it is `period == (c0+c1)/2` that maps to 0.5). -/
theorem C5_cex_c1_maps_to_one :
    throttle_dc 1000 1000 ≠ 1/2 ∧ throttle_dc 1000 1000 = 1 := by
  constructor <;> norm_num [throttle_dc]

/-- Claim C5 (amended): for every positive configured comm-period floor
`c1` (with `c0 = c1/2` computed by unsigned integer division as in the
code), the linear throttle-back value `dc = (period - c0)/(c1 - c0)`
maps `period == c1` to `dc = 1` and `period == c0` to `dc = 0`. -/
theorem C5_throttle_endpoints (limit : Nat) (h : 0 < limit) :
    throttle_dc limit limit = 1 ∧ throttle_dc limit (limit / 2) = 0 := by
  have hlt : (limit / 2 : Nat) < limit := Nat.div_lt_self h one_lt_two
  have hq : ((limit / 2 : Nat) : ℚ) < (limit : ℚ) := by exact_mod_cast hlt
  have hne : ((limit : ℚ) - ((limit / 2 : Nat) : ℚ)) ≠ 0 :=
    sub_ne_zero.mpr (ne_of_gt hq)
  constructor
  · simp only [throttle_dc]
    exact div_self hne
  · simp only [throttle_dc, sub_self, zero_div]

/-- Witness for C5_throttle_endpoints at the concrete floor 1000. -/
theorem C5_throttle_endpoints_witness :
    throttle_dc 1000 1000 = 1 ∧ throttle_dc 1000 500 = 0 := by
  have h := C5_throttle_endpoints 1000 (by norm_num)
  norm_num at h
  exact h

/-! ### C7 -/

/-- Claim C7: `motorctl_set_duty_cycle` clamps its argument to [0,1]
(values outside go to the nearer bound), switches the mode to OpenLoop
and stores the clamped value as `dc_openloop_setpoint`;
`motorctl_set_rpm` clamps to `[0, rpm_max]` (any rpm above `rpm_max` is
stored as exactly `rpm_max`), switches the mode to TargetRpm and stores
the clamped value as `rpm_setpoint`. -/
theorem C7_setters_clamp (p : Params) (s : State) (dc : ℚ) (rpm : Nat) :
    (motorctl_set_duty_cycle dc s).mode = MotorctlMode.openloop ∧
    0 ≤ (motorctl_set_duty_cycle dc s).dc_openloop_setpoint ∧
    (motorctl_set_duty_cycle dc s).dc_openloop_setpoint ≤ 1 ∧
    (dc < 0 → (motorctl_set_duty_cycle dc s).dc_openloop_setpoint = 0) ∧
    (1 < dc → (motorctl_set_duty_cycle dc s).dc_openloop_setpoint = 1) ∧
    (0 ≤ dc → dc ≤ 1 → (motorctl_set_duty_cycle dc s).dc_openloop_setpoint = dc) ∧
    (motorctl_set_rpm p rpm s).mode = MotorctlMode.rpm ∧
    (motorctl_set_rpm p rpm s).rpm_setpoint = min rpm p.rpm_max ∧
    (p.rpm_max < rpm → (motorctl_set_rpm p rpm s).rpm_setpoint = p.rpm_max) := by
  simp only [motorctl_set_duty_cycle, motorctl_set_rpm]
  refine ⟨trivial, ?_, ?_, ?_, ?_, ?_, trivial, ?_, ?_⟩ <;> split_ifs <;>
    first
      | rfl
      | omega
      | linarith
      | (intro h1; linarith)
      | (intro h1 h2; linarith)

/-- Witness for C7_setters_clamp: an out-of-range duty cycle is stored
as 0 and an RPM request above `rpm_max` is stored as `rpm_max`. -/
theorem C7_setters_clamp_witness :
    (motorctl_set_duty_cycle (-2) initState).dc_openloop_setpoint = 0 ∧
    (motorctl_set_rpm p0 5000 initState).rpm_setpoint = p0.rpm_max := by
  have h := C7_setters_clamp p0 initState (-2) 5000
  exact ⟨h.2.2.2.1 (by norm_num), h.2.2.2.2.2.2.2.2 (by decide)⟩

/-! ### C8 -/

/-- Claim C8: for every positive pole count and positive commutation
period, `comm_period_to_rpm` computes exactly
`floor((120 * HNSEC_PER_SEC) / (poles * 6 * comm_period))` in integer
arithmetic (the intermediate `uint32_t` truncation is vacuous), and for
14 poles the commutation period corresponding to exactly 1000 RPM maps
back to exactly 1000 (so certainly within the claimed ±1). -/
theorem C8_rpm_formula (poles cp : Nat) (hp : 0 < poles) (hc : 0 < cp) :
    comm_period_to_rpm poles cp =
      some ((120 * HNSEC_PER_SEC) / (poles * 6 * cp)) ∧
    comm_period_to_rpm 14 ((120 * HNSEC_PER_SEC) / (14 * 6 * 1000)) =
      some 1000 := by
  constructor
  · have hx : (120 * HNSEC_PER_SEC) / (poles * 6) % (2 ^ 32) =
        (120 * HNSEC_PER_SEC) / (poles * 6) := by
      apply Nat.mod_eq_of_lt
      calc (120 * HNSEC_PER_SEC) / (poles * 6)
          ≤ (120 * HNSEC_PER_SEC) / 6 :=
            Nat.div_le_div_left (by omega) (by norm_num)
        _ < 2 ^ 32 := by norm_num [HNSEC_PER_SEC]
    simp only [comm_period_to_rpm, rpm_conv_x, if_neg (Nat.pos_iff_ne_zero.mp hc), hx,
      Nat.div_div_eq_div_mul]
  · decide

/-- Witness for C8_rpm_formula at poles = 14, comm period = 14285. -/
theorem C8_rpm_formula_witness :
    comm_period_to_rpm 14 14285 = some ((120 * HNSEC_PER_SEC) / (14 * 6 * 14285)) := by
  exact (C8_rpm_formula 14 14285 (by norm_num) (by norm_num)).1

/-! ### C10 -/

/-- Claim C10 is a code bug: when the driver reports the motor stopped
(live commutation period 0), `motorctl_get_rpm` reaches the division
`x / comm_period_hnsec` of `comm_period_to_rpm` with a zero divisor —
undefined behaviour for C unsigned division, modelled here as `none` —
so `get_rpm` is not a well-defined total function of the driver-reported
commutation period. -/
theorem C10_get_rpm_zero_divisor : motorctl_get_rpm p0 0 = none := rfl

/-! ### Helper lemmas about the control law and concrete states -/

/-- The mode-specific control laws never modify `dc_actual`. -/
lemma control_law_fst_dc_actual (p : Params) (env : Env) (dt : ℚ) (s : State) :
    (control_law p env dt s).1.dc_actual = s.dc_actual := by
  obtain ⟨m, lm, a, b, c, d, e⟩ := s
  cases m <;>
    simp only [control_law, update_control_open_loop, update_control_rpm] <;>
    split_ifs <;> rfl

/-- The mode-specific control laws never modify `dc_openloop_setpoint`. -/
lemma control_law_fst_dc_openloop_setpoint (p : Params) (env : Env) (dt : ℚ) (s : State) :
    (control_law p env dt s).1.dc_openloop_setpoint = s.dc_openloop_setpoint := by
  obtain ⟨m, lm, a, b, c, d, e⟩ := s
  cases m <;>
    simp only [control_law, update_control_open_loop, update_control_rpm] <;>
    split_ifs <;> rfl

/-- The mode-specific control laws never modify `rpm_setpoint`. -/
lemma control_law_fst_rpm_setpoint (p : Params) (env : Env) (dt : ℚ) (s : State) :
    (control_law p env dt s).1.rpm_setpoint = s.rpm_setpoint := by
  obtain ⟨m, lm, a, b, c, d, e⟩ := s
  cases m <;>
    simp only [control_law, update_control_open_loop, update_control_rpm] <;>
    split_ifs <;> rfl

/-- The explicit value of the post-init state `s04`. -/
lemma s04_eq :
    s04 = ⟨MotorctlMode.openloop, LimitMask.empty, 0, 0, 0, 4, 0⟩ := by
  norm_num [s04, motorctl_init, initState, MIN_VALID_INPUT_VOLTAGE,
    MAX_VALID_INPUT_VOLTAGE, LimitMask.empty]

/-! ### C2 -/

/-- Claim C2: whenever the motor is running and the mode-specific
control law yields no valid output, the worker tick performs a full
stop: it commands the driver to stop, clears `limit_mask`, zeroes
`dc_actual` and resets both setpoints to 0. -/
theorem C2_stop_on_no_output (p : Params) (env : Env) (dt : ℚ) (s : State)
    (hrun : env.motor_state = MotorState.running)
    (hnone : (control_law p env dt s).2 = none) :
    update_control p env dt s =
      (stop ((control_law p env dt s).1), some Command.stop) ∧
    (update_control p env dt s).1.dc_actual = 0 ∧
    (update_control p env dt s).1.limit_mask = LimitMask.empty ∧
    (update_control p env dt s).1.dc_openloop_setpoint = 0 ∧
    (update_control p env dt s).1.rpm_setpoint = 0 := by
  have hru : ¬ (env.motor_state ≠ MotorState.running) := by simp [hrun]
  have h1 : update_control p env dt s =
      (stop ((control_law p env dt s).1), some Command.stop) := by
    simp only [update_control, if_neg hru, hnone]
  exact ⟨h1, by simp [h1, stop], by simp [h1, stop], by simp [h1, stop],
    by simp [h1, stop]⟩

/-- Witness for C2_stop_on_no_output: motor running but the driver
reports commutation period 0 (`control_law` yields no output), starting
from the post-init state in OpenLoop mode. -/
theorem C2_stop_on_no_output_witness :
    (update_control p0 ⟨MotorState.running, 0, 4, 0⟩ (1/1000) s04).1.dc_actual = 0 ∧
    (update_control p0 ⟨MotorState.running, 0, 4, 0⟩ (1/1000) s04).1.limit_mask = LimitMask.empty ∧
    (update_control p0 ⟨MotorState.running, 0, 4, 0⟩ (1/1000) s04).1.dc_openloop_setpoint = 0 ∧
    (update_control p0 ⟨MotorState.running, 0, 4, 0⟩ (1/1000) s04).1.rpm_setpoint = 0 := by
  have hnone : (control_law p0 ⟨MotorState.running, 0, 4, 0⟩ (1/1000) s04).2 = none := by
    rw [s04_eq]
    simp [control_law, update_control_open_loop]
  exact (C2_stop_on_no_output p0 ⟨MotorState.running, 0, 4, 0⟩ (1/1000) s04 rfl hnone).2

/-! ### C4 -/

/-- Claim C4: whenever the motor is running and the mode is TargetRpm,
the closed-loop RPM control law yields no valid output, so the worker
always performs a full stop in that mode and never produces a duty
cycle. -/
theorem C4_rpm_mode_forces_stop (p : Params) (env : Env) (dt : ℚ) (s : State)
    (hrun : env.motor_state = MotorState.running)
    (hmode : s.mode = MotorctlMode.rpm) :
    (control_law p env dt s).2 = none ∧
    update_control p env dt s = (stop s, some Command.stop) := by
  have hru : ¬ (env.motor_state ≠ MotorState.running) := by simp [hrun]
  have hlaw : control_law p env dt s = (s, none) := by
    simp only [control_law, hmode, update_control_rpm]
  refine ⟨by rw [hlaw], ?_⟩
  simp only [update_control, if_neg hru, hlaw]

/-- Witness for C4_rpm_mode_forces_stop with concrete parameters, a
TargetRpm-mode state with a pending RPM setpoint, and a running tick. -/
theorem C4_rpm_mode_forces_stop_witness :
    (control_law p0 envRun (1/1000)
        ⟨MotorctlMode.rpm, LimitMask.empty, 1/2, 0, 800, 4, 0⟩).2 = none ∧
    update_control p0 envRun (1/1000)
        ⟨MotorctlMode.rpm, LimitMask.empty, 1/2, 0, 800, 4, 0⟩ =
      (stop ⟨MotorctlMode.rpm, LimitMask.empty, 1/2, 0, 800, 4, 0⟩,
       some Command.stop) :=
  C4_rpm_mode_forces_stop p0 envRun (1/1000)
    ⟨MotorctlMode.rpm, LimitMask.empty, 1/2, 0, 800, 4, 0⟩ rfl rfl

/-! ### C3 -/

/-- Claim C3 (amended): if the candidate differs from `dc_actual` by
more than `dc_step_max`, the applied change is exactly
`±(dc_slope × dt)` toward the candidate and the acceleration-limit flag
is set; otherwise the candidate is accepted directly (a change of at
most `dc_step_max`, which may exceed `dc_slope × dt`) and the flag is
cleared. -/
theorem C3_slope_step (p : Params) (s : State) (env : Env) (dt cand : ℚ)
    (hrun : env.motor_state = MotorState.running)
    (hlaw : (control_law p env dt s).2 = some cand) :
    (|cand - (control_law p env dt s).1.dc_actual| > p.dc_step_max →
      (update_control p env dt s).1.dc_actual =
        (control_law p env dt s).1.dc_actual +
          (if cand < (control_law p env dt s).1.dc_actual then -(p.dc_slope * dt)
           else p.dc_slope * dt) ∧
      (update_control p env dt s).1.limit_mask.accel = true) ∧
    (¬ (|cand - (control_law p env dt s).1.dc_actual| > p.dc_step_max) →
      (update_control p env dt s).1.dc_actual = cand ∧
      |(update_control p env dt s).1.dc_actual -
         (control_law p env dt s).1.dc_actual| ≤ p.dc_step_max ∧
      (update_control p env dt s).1.limit_mask.accel = false) := by
  have hru : ¬ (env.motor_state ≠ MotorState.running) := by simp [hrun]
  constructor
  · intro hbig
    simp only [update_control, if_neg hru, hlaw]
    rw [if_pos hbig]
    exact ⟨rfl, rfl⟩
  · intro hsmall
    simp only [update_control, if_neg hru, hlaw]
    rw [if_neg hsmall]
    exact ⟨rfl, le_of_not_lt hsmall, rfl⟩

/-- The two-operation prefix of the C3 counterexample trace: command a
duty cycle of 0.55, then one idle tick that spins the motor up. -/
def opsB2 : List Op := [Op.setDC (11/20), Op.tick envIdle (1/1000)]

/-- The state reached by `opsB2` from the post-init state: spin-up duty
1/2 applied, setpoint 0.55 pending. -/
def sB2 : State := ⟨MotorctlMode.openloop, LimitMask.empty, 1/2, 11/20, 0, 4, 0⟩

/-- Running the C3 counterexample prefix indeed reaches `sB2`. -/
lemma runB2 : run p0 s04 opsB2 = sB2 := by
  show step p0 (step p0 s04 (Op.setDC (11/20))) (Op.tick envIdle (1/1000)) = sB2
  have h1 : step p0 s04 (Op.setDC (11/20)) =
      ⟨MotorctlMode.openloop, LimitMask.empty, 0, 11/20, 0, 4, 0⟩ := by
    rw [s04_eq]
    norm_num [step, motorctl_set_duty_cycle, LimitMask.empty]
  rw [h1]
  norm_num +decide [step, update_filters, lowpass, update_control,
    update_control_non_running, envIdle, p0, configure, sB2, LimitMask.empty]

/-- Claim C3 counterexample: a reachable running tick with the nominal
1 ms period in which the slope limiter changes `dc_actual` by 1/20 —
far more than `dc_slope × dt = 1/1000` — because a candidate within
`dc_step_max` of `dc_actual` is accepted directly, refuting “the slope
limiter never changes `dc_actual` by more than `slope_rate × dt`”. -/
theorem C3_cex_small_jump_exceeds_slope :
    run p0 s04 opsB2 = sB2 ∧
    |(step p0 sB2 (Op.tick envRun (1/1000))).dc_actual - sB2.dc_actual| >
      p0.dc_slope * (1/1000) := by
  refine ⟨runB2, ?_⟩
  have h3 : step p0 sB2 (Op.tick envRun (1/1000)) =
      ⟨MotorctlMode.openloop, LimitMask.empty, 11/20, 11/20, 0, 4, 0⟩ := by
    norm_num +decide [step, update_filters, lowpass, update_control, control_law,
      update_control_open_loop, throttle_dc, envRun, p0, configure, sB2,
      LimitMask.empty, abs_of_nonneg, abs_of_nonpos]
  rw [h3]
  norm_num [sB2, p0, configure, abs_of_nonneg]

/-- Witness for C3_slope_step: a running tick whose candidate (0.55) is
within `dc_step_max` of `dc_actual` (0.5) is applied directly. -/
theorem C3_slope_step_witness :
    (update_control p0 envRun (1/1000) sB2).1.dc_actual = 11/20 := by
  have hlaw : control_law p0 envRun (1/1000) sB2 = (sB2, some (11/20)) := by
    norm_num +decide [control_law, update_control_open_loop, throttle_dc, sB2,
      envRun, p0, configure]
  have h := C3_slope_step p0 sB2 envRun (1/1000) (11/20) rfl (by rw [hlaw])
  have hsmall : ¬ (|(11/20 : ℚ) -
      (control_law p0 envRun (1/1000) sB2).1.dc_actual| > p0.dc_step_max) := by
    rw [hlaw]
    norm_num [sB2, p0, configure, abs_of_nonneg]
  exact (h.2 hsmall).1

/-- The C1/C6 counterexample trace: command full duty from standstill,
one idle tick (spin-up), then one running tick with dt = 1 s. -/
def opsA : List Op := [Op.setDC 1, Op.tick envIdle 1, Op.tick envRun 1]

/-- The state reached by `opsA`: the slope limiter stepped `dc_actual`
from 1/2 by `dc_slope * dt = 1` to 3/2 and set the accel-limit bit. -/
def sA3 : State := ⟨MotorctlMode.openloop, ⟨false, true⟩, 3/2, 1, 0, 4, 0⟩

/-- Running `opsA` from the post-init state indeed reaches `sA3`. -/
lemma runA : run p0 s04 opsA = sA3 := by
  show step p0 (step p0 (step p0 s04 (Op.setDC 1)) (Op.tick envIdle 1))
      (Op.tick envRun 1) = sA3
  have h1 : step p0 s04 (Op.setDC 1) =
      ⟨MotorctlMode.openloop, LimitMask.empty, 0, 1, 0, 4, 0⟩ := by
    rw [s04_eq]
    norm_num [step, motorctl_set_duty_cycle, LimitMask.empty]
  have h2 : step p0 ⟨MotorctlMode.openloop, LimitMask.empty, 0, 1, 0, 4, 0⟩
      (Op.tick envIdle 1) =
      ⟨MotorctlMode.openloop, LimitMask.empty, 1/2, 1, 0, 4, 0⟩ := by
    norm_num +decide [step, update_filters, lowpass, update_control,
      update_control_non_running, envIdle, p0, configure, LimitMask.empty]
  have h3 : step p0 ⟨MotorctlMode.openloop, LimitMask.empty, 1/2, 1, 0, 4, 0⟩
      (Op.tick envRun 1) = sA3 := by
    norm_num +decide [step, update_filters, lowpass, update_control, control_law,
      update_control_open_loop, throttle_dc, envRun, p0, configure, sA3,
      LimitMask.empty, abs_of_nonneg, abs_of_nonpos]
  rw [h1, h2, h3]

/-! ### C1 -/

/-- The part of the claimed state invariant that the code maintains:
`dc_openloop_setpoint` stays in [0,1] and `rpm_setpoint` never exceeds
`rpm_max`. -/
def SetpointInv (p : Params) (s : State) : Prop :=
  0 ≤ s.dc_openloop_setpoint ∧ s.dc_openloop_setpoint ≤ 1 ∧
  s.rpm_setpoint ≤ p.rpm_max

/-- A worker tick either leaves both setpoints unchanged or (on a full
stop) zeroes both of them. -/
lemma update_control_setpoints (p : Params) (env : Env) (dt : ℚ) (s : State) :
    ((update_control p env dt s).1.dc_openloop_setpoint = s.dc_openloop_setpoint ∧
     (update_control p env dt s).1.rpm_setpoint = s.rpm_setpoint) ∨
    ((update_control p env dt s).1.dc_openloop_setpoint = 0 ∧
     (update_control p env dt s).1.rpm_setpoint = 0) := by
  by_cases hrun : env.motor_state = MotorState.running
  · have hru : ¬ (env.motor_state ≠ MotorState.running) := by simp [hrun]
    cases hc : (control_law p env dt s).2 with
    | none =>
      right
      simp only [update_control, if_neg hru, hc]
      exact ⟨rfl, rfl⟩
    | some cand =>
      left
      simp only [update_control, if_neg hru, hc]
      by_cases hb : |cand - (control_law p env dt s).1.dc_actual| > p.dc_step_max
      · rw [if_pos hb]
        exact ⟨control_law_fst_dc_openloop_setpoint p env dt s,
          control_law_fst_rpm_setpoint p env dt s⟩
      · rw [if_neg hb]
        exact ⟨control_law_fst_dc_openloop_setpoint p env dt s,
          control_law_fst_rpm_setpoint p env dt s⟩
  · left
    simp only [update_control, if_pos hrun, update_control_non_running]
    split_ifs <;> exact ⟨rfl, rfl⟩

/-- Every single operation preserves the setpoint invariant. -/
lemma setpointInv_step (p : Params) (s : State) (op : Op)
    (h : SetpointInv p s) : SetpointInv p (step p s op) := by
  obtain ⟨h0, h1, h2⟩ := h
  cases op with
  | setDC dc =>
    refine ⟨?_, ?_, h2⟩ <;>
      simp only [step, motorctl_set_duty_cycle] <;> split_ifs <;> linarith
  | setRPM rpm =>
    refine ⟨h0, h1, ?_⟩
    simp only [step, motorctl_set_rpm]
    split_ifs <;> omega
  | tick env dt =>
    simp only [step]
    rcases update_control_setpoints p env dt (update_filters p env dt s) with
      ⟨ha, hb⟩ | ⟨ha, hb⟩
    · exact ⟨by rw [ha]; exact h0, by rw [ha]; exact h1, by rw [hb]; exact h2⟩
    · exact ⟨by rw [ha], by rw [ha]; norm_num, by rw [hb]; exact Nat.zero_le _⟩

/-- Claim C1 (amended): for every sequence of operations (worker ticks,
setters) from a state satisfying it, `dc_openloop_setpoint` stays in
[0,1] and `rpm_setpoint` never exceeds `rpm_max`; the claimed bound
`dc_actual ∈ [0,1]` does not hold (see the counterexample). -/
theorem C1_setpoint_invariant (p : Params) (s : State) (ops : List Op)
    (h : SetpointInv p s) : SetpointInv p (run p s ops) := by
  induction ops generalizing s with
  | nil => exact h
  | cons op rest ih => exact ih (step p s op) (setpointInv_step p s op h)

/-- Witness for C1_setpoint_invariant on the concrete trace `opsA` from
the post-init state. -/
theorem C1_setpoint_invariant_witness : SetpointInv p0 (run p0 s04 opsA) := by
  apply C1_setpoint_invariant
  rw [s04_eq]
  simp only [SetpointInv]
  exact ⟨le_refl 0, by norm_num, Nat.zero_le _⟩

/-- Claim C1 counterexample: after commanding full duty from standstill
and two worker ticks, `dc_actual` is 3/2, outside [0,1] — the slope
limiter steps `dc_actual` by `dc_slope * dt` without clamping to the
candidate or to 1. -/
theorem C1_cex_dc_actual_escapes :
    run p0 s04 opsA = sA3 ∧ sA3.dc_actual = 3/2 ∧ ¬ (sA3.dc_actual ≤ 1) := by
  refine ⟨runA, rfl, ?_⟩
  norm_num [sA3]

/-! ### C6 -/

/-- Claim C6 (amended): operations executed while the driver does not
report the motor running never set `limit_mask` bits: a tick leaves the
mask unchanged (while the driver is starting) or clears it to empty
(which does modify it when bits were set), and the setters never touch
it. -/
theorem C6_limit_mask_not_running (p : Params) (s : State) (env : Env)
    (dt dc : ℚ) (rpm : Nat) (h : env.motor_state ≠ MotorState.running) :
    ((step p s (Op.tick env dt)).limit_mask = s.limit_mask ∨
     (step p s (Op.tick env dt)).limit_mask = LimitMask.empty) ∧
    (step p s (Op.setDC dc)).limit_mask = s.limit_mask ∧
    (step p s (Op.setRPM rpm)).limit_mask = s.limit_mask := by
  refine ⟨?_, rfl, rfl⟩
  simp only [step, update_control, if_pos h, update_control_non_running]
  split_ifs
  · left
    rfl
  · right
    rfl
  · right
    rfl

/-- Witness for C6_limit_mask_not_running at a concrete idle tick and
concrete setter arguments from the state `sA3`. -/
theorem C6_limit_mask_not_running_witness :
    ((step p0 sA3 (Op.tick envIdle 1)).limit_mask = sA3.limit_mask ∨
     (step p0 sA3 (Op.tick envIdle 1)).limit_mask = LimitMask.empty) ∧
    (step p0 sA3 (Op.setDC (1/2))).limit_mask = sA3.limit_mask ∧
    (step p0 sA3 (Op.setRPM 600)).limit_mask = sA3.limit_mask :=
  C6_limit_mask_not_running p0 sA3 envIdle 1 (1/2) 600 (by decide)

/-- Claim C6 counterexample: the trace `opsA` reaches `sA3`, whose
acceleration-limit bit is set; one further worker tick executed while
the driver reports the motor idle modifies `limit_mask` (it clears it),
refuting “no operation executed while the motor is not running modifies
`limit_mask`”. -/
theorem C6_cex_idle_tick_clears_mask :
    run p0 s04 opsA = sA3 ∧
    sA3.limit_mask ≠ LimitMask.empty ∧
    envIdle.motor_state ≠ MotorState.running ∧
    (step p0 sA3 (Op.tick envIdle 1)).limit_mask ≠ sA3.limit_mask := by
  refine ⟨runA, by decide, by decide, ?_⟩
  have h4 : step p0 sA3 (Op.tick envIdle 1) =
      ⟨MotorctlMode.openloop, LimitMask.empty, 1/2, 1, 0, 4, 0⟩ := by
    norm_num +decide [step, update_filters, lowpass, update_control,
      update_control_non_running, envIdle, p0, configure, sA3, LimitMask.empty]
  rw [h4]
  decide

/-! ### C9 -/

/-- Claim C9: a failed driver init is propagated unchanged and nothing
else is initialized; a seeded input voltage outside the valid band (in
particular 0) makes `motorctl_init` return a failure status (-1) without
starting the worker thread. -/
theorem C9_init_failures (r : Int) (v c : ℚ) :
    (r ≠ 0 →
      motorctl_init r v c =
        ({ ret := r, configured := false, thread_started := false },
         initState)) ∧
    (r = 0 → (v < MIN_VALID_INPUT_VOLTAGE ∨ v > MAX_VALID_INPUT_VOLTAGE) →
      (motorctl_init r v c).1.ret = -1 ∧
      (motorctl_init r v c).1.ret ≠ 0 ∧
      (motorctl_init r v c).1.thread_started = false) := by
  constructor
  · intro hr
    simp only [motorctl_init, if_pos hr]
  · intro hr hv
    subst hr
    simp only [motorctl_init]
    rw [if_neg (by norm_num : ¬ ((0:Int) ≠ 0)), if_pos hv]
    exact ⟨rfl, by norm_num, rfl⟩

/-- Witness for C9_init_failures: a seeded input voltage of 0 makes
initialization fail with -1 and no worker thread. -/
theorem C9_init_failures_witness :
    (motorctl_init 0 0 0).1.ret = -1 ∧
    (motorctl_init 0 0 0).1.thread_started = false := by
  have h := (C9_init_failures 0 0 0).2 rfl
    (Or.inl (by norm_num [MIN_VALID_INPUT_VOLTAGE]))
  exact ⟨h.1, h.2.2⟩

end Motorctl
